import Mathlib

/-!
Verification of the media session reconciliation engine (vidstack player).

This file gives a shallow embedding of the request manager
(`player/media/controller/request-manager.ts`), the state manager
(`player/media/controller/use-media-state-manager.ts`), the idle detector
(`useMediaUser`) and the ads controller (`core/ads/controller.ts`), and proves
or refutes the specification claims about them.

Conventions:
- JavaScript numbers that may be `NaN` are modelled as `Option ℚ` (with `none`
  playing the role of `NaN`); numbers that the handlers only ever compare and
  copy are modelled as `ℚ`.
- `TimeRanges` objects are modelled as lists of closed intervals.
- The request manager's handlers are modelled as functions returning the
  ordered list of side effects they perform (queue operations, provider
  property writes, provider calls, dispatched failure events, log lines);
  the effect on the provider and on the request queue is recovered by
  folding that list.
- The state manager is modelled as a step function on a state record holding
  the `MediaState` store, the tracked-events map used for trigger chains, the
  `skipInitialSrcChange` flag and the `isReplay`/`isLooping` signals.
  Timer-based rate limiting (the 150ms seeking throttle and the 300ms waiting
  debounce) is not modelled as real time: the debounced waiting write is
  modelled as its own step (`EngineEvent.waitingFire`).
-/

namespace Vidstack

/-- TimeRanges object: a list of closed intervals (start, end). -/
abbrev TimeRanges : Type := List (ℚ × ℚ)

/-- A JavaScript number that may be `NaN` (`none` is `NaN`). -/
abbrev JSNum : Type := Option ℚ

/-! ## Request queue categories (`foundation/queue`, `MediaRequestQueueRecord`) -/

/-- The request categories of `MediaRequestQueueRecord`. -/
inductive ReqCategory
  | load
  | play
  | pause
  | volume
  | fullscreen
  | seeking
  | seeked
  | userIdle
  deriving DecidableEq, Repr

/-! ## Request manager (`request-manager.ts`) -/

/-- One side effect performed by a request-manager handler, in program order:
queue enqueue/delete, a provider property write or async call, a user-visible
event routed through `handler.handle`, a dev-log line, or a signal write on the
`MediaRequestContext`. -/
inductive RMAction
  | enqueue (cat : ReqCategory) (eventId : ℕ)
  | deleteSlot (cat : ReqCategory)
  | setMuted (b : Bool)
  | setVolume (v : ℚ)
  | setCurrentTime (t : ℚ)
  | providerPlay
  | providerPause
  | providerFullscreen
  | dispatch (name : String)
  | logError (name : String)
  | setReplaySignal (b : Bool)
  | setSeekingSignal (b : Bool)
  deriving DecidableEq, Repr

/-- The fragment of the `$store` media state read by the request manager. -/
structure MediaStore where
  muted : Bool
  volume : ℚ
  paused : Bool
  ended : Bool
  duration : ℚ
  currentTime : ℚ
  deriving DecidableEq, Repr

/-- The provider-owned properties written by the request manager. -/
structure ProviderState where
  muted : Bool
  volume : ℚ
  currentTime : ℚ
  deriving DecidableEq, Repr

/-- Handler for `media-mute-request`: no-op when already muted, otherwise
enqueue one `volume` record and set the provider's `muted` to `true`. -/
def onMuteRequest (store : MediaStore) (eventId : ℕ) : List RMAction :=
  if store.muted then []
  else [.enqueue .volume eventId, .setMuted true]

/-- Handler for `media-unmute-request`: no-op when not muted, otherwise enqueue
a `volume` record and unmute; when the stored volume is exactly 0 additionally
enqueue a second `volume` record and force the provider volume to 0.25. -/
def onUnmuteRequest (store : MediaStore) (eventId : ℕ) : List RMAction :=
  if !store.muted then []
  else
    [.enqueue .volume eventId, .setMuted false] ++
      (if store.volume = 0 then [.enqueue .volume eventId, .setVolume 0.25] else [])

/-- Handler for `media-play-request`, with `rejects` recording whether the
provider's `play()` promise rejected: no-op when not paused; otherwise enqueue
a `play` record and call `play()`; on rejection a `play-fail` event carrying
the error is routed through `handler.handle`. -/
def onPlayRequest (store : MediaStore) (eventId : ℕ) (rejects : Bool) : List RMAction :=
  if !store.paused then []
  else
    [.enqueue .play eventId, .providerPlay] ++
      (if rejects then [.dispatch "play-fail"] else [])

/-- Handler for `media-pause-request`, with `rejects` recording whether the
provider's `pause()` promise rejected: no-op when already paused; otherwise
enqueue a `pause` record and call `pause()`; on rejection the pending `pause`
slot is deleted and the failure is only logged in dev builds. -/
def onPauseRequest (store : MediaStore) (eventId : ℕ) (rejects : Bool) : List RMAction :=
  if store.paused then []
  else
    [.enqueue .pause eventId, .providerPause] ++
      (if rejects then [.deleteSlot .pause, .logError "pause-fail"] else [])

/-- Handler for `media-seek-request` with requested time `t`: sets the replay
signal when the media has ended, enqueues a `seeked` record, clears the seeking
signal, and writes the provider target time, spanning to `duration` when the
request is within 0.25s of the end. -/
def onSeekRequest (store : MediaStore) (eventId : ℕ) (t : ℚ) : List RMAction :=
  (if store.ended then [.setReplaySignal true] else []) ++
    [.enqueue .seeked eventId, .setSeekingSignal false,
     .setCurrentTime (if store.duration - t < 0.25 then store.duration else t)]

/-- Handler for `media-volume-change-request` with requested volume `v`: silent
no-op when the stored volume already equals `v`; otherwise enqueue a `volume`
record and write the provider volume; when `v > 0` while muted, additionally
enqueue a second `volume` record and unmute the provider. -/
def onVolumeChangeRequest (store : MediaStore) (eventId : ℕ) (v : ℚ) : List RMAction :=
  if store.volume = v then []
  else
    [.enqueue .volume eventId, .setVolume v] ++
      (if 0 < v ∧ store.muted then [.enqueue .volume eventId, .setMuted false] else [])

/-- Handler for `media-enter-fullscreen-request`, with `rejects` recording
whether the fullscreen call threw or rejected: the failure is surfaced as a
`fullscreen-error` event routed through `handler.handle`. -/
def onEnterFullscreenRequest (eventId : ℕ) (rejects : Bool) : List RMAction :=
  [.enqueue .fullscreen eventId, .providerFullscreen] ++
    (if rejects then [.dispatch "fullscreen-error"] else [])

/-- Apply one action to the provider-owned properties. -/
def applyToProvider (p : ProviderState) : RMAction → ProviderState
  | .setMuted b => { p with muted := b }
  | .setVolume v => { p with volume := v }
  | .setCurrentTime t => { p with currentTime := t }
  | _ => p

/-- Final provider properties after running a handler's actions in order. -/
def runProvider (acts : List RMAction) (p : ProviderState) : ProviderState :=
  acts.foldl applyToProvider p

/-- Apply one action to the single-slot request queue (enqueue replaces the
occupant of a category slot, delete removes it without serving). -/
def applyToQueue (q : ReqCategory → Option ℕ) : RMAction → ReqCategory → Option ℕ
  | .enqueue c e => fun c2 => if c2 = c then some e else q c2
  | .deleteSlot c => fun c2 => if c2 = c then none else q c2
  | _ => q

/-- Final queue slots after running a handler's actions in order. -/
def runQueue (acts : List RMAction) (q : ReqCategory → Option ℕ) : ReqCategory → Option ℕ :=
  acts.foldl applyToQueue q

/-- Number of enqueue operations performed under a category. -/
def enqueueCount (cat : ReqCategory) (acts : List RMAction) : ℕ :=
  (acts.filter fun a => match a with | .enqueue c _ => c = cat | _ => false).length

/-- Names of the user-visible failure events dispatched by a handler. -/
def dispatchedNames (acts : List RMAction) : List String :=
  acts.filterMap fun a => match a with | .dispatch n => some n | _ => none

/-- Names of the log-only failure lines produced by a handler. -/
def loggedNames (acts : List RMAction) : List String :=
  acts.filterMap fun a => match a with | .logError n => some n | _ => none

/-! ## State manager (`use-media-state-manager.ts`) -/

/-- The canonical `MediaState` fields written by the state manager. -/
structure MediaState where
  paused : Bool
  playing : Bool
  seeking : Bool
  waiting : Bool
  ended : Bool
  started : Bool
  canLoad : Bool
  canPlay : Bool
  muted : Bool
  fullscreen : Bool
  live : Bool
  currentTime : ℚ
  volume : ℚ
  duration : JSNum
  played : TimeRanges
  buffered : TimeRanges
  seekable : TimeRanges
  bufferedAmount : ℚ
  seekableAmount : ℚ
  source : ℕ
  sources : List ℕ
  mediaType : String
  viewType : String
  error : Option ℕ
  autoplayError : Option ℕ
  deriving DecidableEq, Repr

/-- The initial media store created when a provider attaches. -/
def initialMediaState : MediaState where
  paused := true
  playing := false
  seeking := false
  waiting := false
  ended := false
  started := false
  canLoad := false
  canPlay := false
  muted := false
  fullscreen := false
  live := false
  currentTime := 0
  volume := 1
  duration := some 0
  played := []
  buffered := []
  seekable := []
  bufferedAmount := 0
  seekableAmount := 0
  source := 0
  sources := []
  mediaType := "unknown"
  viewType := "unknown"
  error := none
  autoplayError := none

/-- Modelled from the spec: `softResetMediaState` is imported from `../store`,
whose source is not among the provided files. Per the spec's data-model
lifecycle, a soft reset returns most fields to their initial values while
preserving a few, such as `volume`/`muted`; the source fields (which the
source-change handler writes before resetting), `canLoad` and the view type are
preserved as well so the new source can load under the same surface. -/
def softResetMediaState (m : MediaState) : MediaState :=
  { initialMediaState with
      volume := m.volume
      muted := m.muted
      source := m.source
      sources := m.sources
      canLoad := m.canLoad
      viewType := m.viewType
      fullscreen := m.fullscreen }

/-- The `trackedEvents` map from event type to the most recently dispatched
event of that type (events are identified by a numeric id). -/
abbrev TrackedMap : Type := String → Option ℕ

/-- Store an event into the tracked-events map. -/
def setTracked (k : String) (v : ℕ) (m : TrackedMap) : TrackedMap :=
  fun k2 => if k2 = k then some v else m k2

/-- State owned by the state manager: the media store, the tracked-events map,
the initial-source-change skip flag and the replay/looping signals shared with
the request manager. -/
structure SMState where
  media : MediaState
  tracked : TrackedMap
  skipInitialSrcChange : Bool
  isReplay : Bool
  isLooping : Bool

/-- State right after a provider attaches. -/
def initialSMState : SMState where
  media := initialMediaState
  tracked := fun _ => none
  skipInitialSrcChange := true
  isReplay := false
  isLooping := false

/-- `resetTracking`: cancel the pending waiting debounce (clearing the waiting
flag), clear the replay and looping signals, and clear the tracked-events map. -/
def resetTracking (st : SMState) : SMState :=
  { st with
      media := { st.media with waiting := false }
      isReplay := false
      isLooping := false
      tracked := fun _ => none }

/-- The provider events handled by the state manager. Events that participate
in trigger chains carry a numeric id. `seeked` and `waiting` carry the value of
the request manager's `$isSeekingRequest` signal at handling time, since that
signal is written from the request side. `waitingFire` is the deferred firing
of the 300ms-debounced waiting write. -/
inductive EngineEvent
  | canLoad (id : ℕ)
  | sourcesChange (id : ℕ) (detail : List ℕ)
  | sourceChange (id : ℕ) (detail : ℕ)
  | mediaTypeChange (detail : String)
  | viewTypeChange (detail : String)
  | loadStart (id : ℕ)
  | abort (id : ℕ)
  | error (id : ℕ) (detail : ℕ)
  | loadedMetadata (id : ℕ)
  | loadedData (id : ℕ)
  | canPlay (id : ℕ) (duration : JSNum)
  | canPlayThrough (id : ℕ) (duration : JSNum)
  | durationChange (detail : JSNum)
  | progress (buffered seekable : TimeRanges)
  | autoplay (id : ℕ)
  | autoplayFail (id : ℕ) (detail : ℕ)
  | play (id : ℕ)
  | playFail (id : ℕ)
  | playing (id : ℕ)
  | pause (id : ℕ)
  | timeUpdate (currentTime : ℚ) (played : TimeRanges)
  | volumeChange (volume : ℚ) (muted : Bool)
  | seeking (id : ℕ) (detail : ℚ)
  | seeked (id : ℕ) (detail : ℚ) (isSeekingRequest : Bool)
  | waiting (isSeekingRequest : Bool)
  | waitingFire (id : ℕ)
  | ended
  | fullscreenChange (detail : Bool)

/-- Whether the handler handles a substring `live` in the media type. -/
def includesLive (s : String) : Bool :=
  decide ("live".data <:+: s.data)

/-- End of the last range of a `TimeRanges`, or 0 when empty (as computed by
`onProgress`). -/
def rangesEnd (l : TimeRanges) : ℚ :=
  match l.getLast? with
  | none => 0
  | some r => r.2

/-- The tracked-events key under which the `trackEvent` wrapper stores an
event, when the listener for it is registered through `trackEvent`. -/
def trackOf : EngineEvent → Option (String × ℕ)
  | .canLoad id => some ("vds-can-load", id)
  | .sourcesChange id _ => some ("vds-sources-change", id)
  | .sourceChange id _ => some ("vds-source-change", id)
  | .loadStart id => some ("vds-load-start", id)
  | .abort id => some ("vds-abort", id)
  | .error id _ => some ("vds-error", id)
  | .loadedMetadata id => some ("vds-loaded-metadata", id)
  | .loadedData id => some ("vds-loaded-data", id)
  | .canPlay id _ => some ("vds-can-play", id)
  | .autoplay id => some ("vds-autoplay", id)
  | .autoplayFail id _ => some ("vds-autoplay-fail", id)
  | .play id => some ("vds-play", id)
  | .playFail id => some ("vds-play-fail", id)
  | .playing id => some ("vds-playing", id)
  | .pause id => some ("vds-pause", id)
  | .seeking id _ => some ("vds-seeking", id)
  | .seeked id _ _ => some ("vds-seeked", id)
  | _ => none

/-- The handler bodies of the state manager, one case per provider event.
Trigger-chain appends (`appendTriggerEvent`) and queue serving
(`satisfyMediaRequest`) mutate the handled event, not this state, and are not
modelled; the deferred `setTimeout(resetTracking, 0)` in `onPlaying` is a
next-tick action and is likewise outside the synchronous step. -/
def stepCore : EngineEvent → SMState → SMState
  | .canLoad _, st => { st with media := { st.media with canLoad := true } }
  | .sourcesChange _ detail, st => { st with media := { st.media with sources := detail } }
  | .sourceChange id detail, st =>
      let st := { st with media := { st.media with source := detail } }
      if st.skipInitialSrcChange then { st with skipInitialSrcChange := false }
      else
        let st := resetTracking st
        { st with
            media := softResetMediaState st.media
            tracked := setTracked "vds-source-change" id st.tracked }
  | .mediaTypeChange detail, st =>
      { st with media := { st.media with mediaType := detail, live := includesLive detail } }
  | .viewTypeChange detail, st => { st with media := { st.media with viewType := detail } }
  | .loadStart _, st => st
  | .abort _, st => st
  | .error _ detail, st => { st with media := { st.media with error := some detail } }
  | .loadedMetadata _, st => st
  | .loadedData _, st => st
  | .canPlay _ d, st => { st with media := { st.media with canPlay := true, duration := d } }
  | .canPlayThrough _ d, st => { st with media := { st.media with canPlay := true, duration := d } }
  | .durationChange d, st =>
      { st with media := { st.media with duration := some (d.getD 0) } }
  | .progress b s, st =>
      { st with
          media :=
            { st.media with
                buffered := b
                bufferedAmount := rangesEnd b
                seekable := s
                seekableAmount := rangesEnd s } }
  | .autoplay _, st => { st with media := { st.media with autoplayError := none } }
  | .autoplayFail _ detail, st =>
      resetTracking { st with media := { st.media with autoplayError := some detail } }
  | .play _, st =>
      if st.isLooping || !st.media.paused then st
      else
        let st := { st with media := { st.media with paused := false, autoplayError := none } }
        if st.media.ended || st.isReplay then
          { st with isReplay := false, media := { st.media with ended := false } }
        else st
  | .playFail _, st =>
      resetTracking { st with media := { st.media with paused := true, playing := false } }
  | .playing _, st =>
      let st :=
        { st with
            media :=
              { st.media with paused := false, playing := true, seeking := false, ended := false } }
      if st.isLooping then { st with isLooping := false }
      else if !st.media.started then { st with media := { st.media with started := true } }
      else st
  | .pause _, st =>
      if st.isLooping then st
      else
        resetTracking
          { st with
              media := { st.media with paused := true, playing := false, seeking := false } }
  | .timeUpdate t p, st =>
      { st with media := { st.media with currentTime := t, played := p, waiting := false } }
  | .volumeChange v m, st =>
      { st with media := { st.media with volume := v, muted := m || v = 0 } }
  | .seeking _ detail, st =>
      { st with media := { st.media with seeking := true, currentTime := detail } }
  | .seeked _ detail isSeekingRequest, st =>
      if isSeekingRequest then { st with media := { st.media with seeking := true } }
      else if st.media.seeking then
        { st with
            media :=
              { st.media with
                  waiting := if st.media.paused then false else st.media.waiting
                  seeking := false
                  ended := if some detail ≠ st.media.duration then false else st.media.ended
                  currentTime := detail } }
      else st
  | .waiting _, st => st
  | .waitingFire id, st =>
      { st with
          media := { st.media with waiting := true, playing := false }
          tracked := setTracked "vds-waiting" id st.tracked }
  | .ended, st =>
      if st.isLooping then st
      else
        resetTracking
          { st with
              media :=
                { st.media with paused := true, playing := false, seeking := false, ended := true } }
  | .fullscreenChange detail, st => { st with media := { st.media with fullscreen := detail } }

/-- One handled provider event: the `trackEvent` wrapper stores the event into
the tracked-events map before the handler body runs. -/
def step (e : EngineEvent) (st : SMState) : SMState :=
  stepCore e
    (match trackOf e with
     | some kv => { st with tracked := setTracked kv.1 kv.2 st.tracked }
     | none => st)

/-- Whether the handler calls `stopImmediatePropagation` (or, for `seeked`
while a seeking request is pending, suppresses the engine event). The
`firingWaiting` re-entrancy guard of `onWaiting` is not modelled. -/
def stopsPropagation (e : EngineEvent) (st : SMState) : Bool :=
  match e with
  | .ended => st.isLooping
  | .play _ => st.isLooping || !st.media.paused
  | .pause _ => st.isLooping
  | .playing _ => st.isLooping
  | .seeked _ _ isSeekingRequest => isSeekingRequest
  | .waiting isSeekingRequest => !isSeekingRequest
  | _ => false

/-- The `ended` consistency invariant of the media state. -/
def EndedInv (m : MediaState) : Prop :=
  m.ended = true → m.paused = true ∧ m.playing = false

/-- States of the state manager reachable from provider attach: closed under
handled provider events and under the writes the request manager performs on
the shared signals between events (`_$isLooping`, `_$isReplay`, and the direct
`$store.seeking = true` write of `onSeekingRequest`). -/
inductive Reachable : SMState → Prop
  | init : Reachable initialSMState
  | step (e : EngineEvent) {st : SMState} : Reachable st → Reachable (step e st)
  | request (looping replay seekingWrite : Bool) {st : SMState} :
      Reachable st →
      Reachable
        { st with
            isLooping := looping
            isReplay := replay
            media := { st.media with seeking := st.media.seeking || seekingWrite } }

/-! ## Idle detector (`useMediaUser`) -/

/-- State of the idle detector: the `$idle` observable (exposed as `idling`),
the `$paused` tracking flag, whether the idle timeout is armed, and the delay
in milliseconds. -/
structure IdleState where
  idling : Bool
  pausedTracking : Bool
  timerArmed : Bool
  delay : ℕ
  deriving DecidableEq, Repr

/-- Fresh detector: not idling, tracking enabled, default 2000ms delay. -/
def initialIdleState : IdleState where
  idling := false
  pausedTracking := false
  timerArmed := false
  delay := 2000

/-- `handleIdleChange`, run on every qualifying input (pointer-down,
pointer-move, focus, key-down): a no-op while tracking is paused; otherwise
clears any pending timeout and arms a fresh one for `delay` milliseconds. -/
def handleIdleChange (s : IdleState) : IdleState :=
  if s.pausedTracking then s else { s with timerArmed := true }

/-- Firing of the timeout armed by `handleIdleChange` after `delay`
milliseconds of silence: the callback sets the `$idle` observable to `false`. -/
def idleTimeoutFire (s : IdleState) : IdleState :=
  if s.timerArmed then { s with idling := false, timerArmed := false } else s

/-- Effect of the media pausing: the `$paused` flag is set, and the reactive
effect on `$paused` forces the `$idle` observable to `true`. -/
def onMediaPause (s : IdleState) : IdleState :=
  { s with pausedTracking := true, idling := true }

/-- Effect of writing the `idle.paused` property: sets the tracking flag, and
when set to `true` the reactive effect forces the `$idle` observable to
`true`. -/
def setIdleTrackingPaused (b : Bool) (s : IdleState) : IdleState :=
  { s with pausedTracking := b, idling := if b then true else s.idling }

/-! ## Ads controller (`core/ads/controller.ts`) -/

/-- The player-state fields of the newer core read and forged by the ads
controller. -/
structure AdMediaState where
  currentTime : ℚ
  played : TimeRanges
  duration : ℚ
  seekableEnd : ℚ
  paused : Bool
  ended : Bool
  adStarted : Bool
  deriving DecidableEq, Repr

/-- Notifications the ads controller forges through `media.delegate._notify`,
applied to the player state exactly as the primary pipeline applies the
matching provider events. -/
inductive AdNotify
  | durationChange (d : ℚ)
  | play
  | pause
  | timeUpdate (currentTime : ℚ) (played : TimeRanges)
  | adEnded
  | waiting

/-- Effect of a forged notification on the player state. -/
def adNotify : AdNotify → AdMediaState → AdMediaState
  | .durationChange d, m => { m with duration := d }
  | .play, m => { m with paused := false }
  | .pause, m => { m with paused := true }
  | .timeUpdate t p, m => { m with currentTime := t, played := p }
  | .adEnded, m => m
  | .waiting, m => m

/-- State of the `AdsController`: the player state it puppeteers, the snapshot
signals `_previousPlaybackPosition` / `_previousPlayedTimeranges`, and the
`_playingNonLinear` flag. -/
structure AdsState where
  media : AdMediaState
  previousPlaybackPosition : ℚ
  previousPlayedTimeranges : Option TimeRanges
  playingNonLinear : Bool
  deriving DecidableEq, Repr

/-- Handler for the SDK `start` event (`_onAdStart`); `isLinear` is
`ad.isLinear()` and `adDuration` is `ad.getDuration()` (`none` when absent).
For a linear ad: snapshot the content position and played ranges, forge a
duration-change carrying the ad's own duration and a play notification, and
mark `adStarted`. For a non-linear ad only the non-linear flag is set. -/
def onAdStart (isLinear : Bool) (adDuration : Option ℚ) (s : AdsState) : AdsState :=
  if isLinear then
    let s :=
      { s with
          playingNonLinear := false
          previousPlaybackPosition := s.media.currentTime
          previousPlayedTimeranges := some s.media.played }
    let m := adNotify (.durationChange (adDuration.getD 0)) s.media
    let m := adNotify .play m
    { s with media := { m with adStarted := true } }
  else { s with playingNonLinear := true }

/-- Handler for the SDK `complete` event (`_onAdComplete`): forge a
duration-change carrying the current `seekableEnd`, a time-update carrying the
snapshotted position and played ranges (with `TimeRange(0, 0)` as fallback when
no snapshot exists), and an `ad-ended` notification. -/
def onAdComplete (s : AdsState) : AdsState :=
  let m := adNotify (.durationChange s.media.seekableEnd) s.media
  let m :=
    adNotify
      (.timeUpdate s.previousPlaybackPosition (s.previousPlayedTimeranges.getD [(0, 0)])) m
  let m := adNotify .adEnded m
  { s with media := m }

/-- Handler for the SDK `skip` event (`_onAdSkip`): the SDK fires no completion
signal for skipped ads, so the completion path is invoked manually. -/
def onAdSkip (s : AdsState) : AdsState :=
  onAdComplete s

/-! ## Concrete inputs used by counterexamples and witnesses -/

/-- Content at position 42 with one played range, content duration 100 but a
seekable window ending at 90. -/
def c1PreState : AdsState where
  media :=
    { currentTime := 42
      played := [(0, 42)]
      duration := 100
      seekableEnd := 90
      paused := false
      ended := false
      adStarted := false }
  previousPlaybackPosition := 0
  previousPlayedTimeranges := none
  playingNonLinear := false

/-- Store that is unmuted with volume exactly 0. -/
def c2Store : MediaStore where
  muted := false
  volume := 0
  paused := true
  ended := false
  duration := 0
  currentTime := 0

/-- Store that is muted with volume exactly 0. -/
def c2StoreMuted : MediaStore where
  muted := true
  volume := 0
  paused := true
  ended := false
  duration := 0
  currentTime := 0

/-- Provider whose properties mirror `c2Store`. -/
def c2Provider : ProviderState where
  muted := false
  volume := 0
  currentTime := 0

/-- Store with duration 10, used for the seek-tolerance examples. -/
def c5Store : MediaStore where
  muted := false
  volume := 1
  paused := false
  ended := false
  duration := 10
  currentTime := 5

/-- Provider at time 5, used for the seek-tolerance examples. -/
def c5Provider : ProviderState where
  muted := false
  volume := 1
  currentTime := 5

/-- Store that is not paused, used for the pause-failure example. -/
def c8Store : MediaStore where
  muted := false
  volume := 1
  paused := false
  ended := false
  duration := 10
  currentTime := 5

/-- Store that is muted at volume 1, used for the volume-change example. -/
def c9Store : MediaStore where
  muted := true
  volume := 1
  paused := false
  ended := false
  duration := 10
  currentTime := 5

/-! ## Theorems -/

/-- C1, counterexample: with content duration 100 but seekable window ending at
90, a linear ad start followed by ad completion leaves `duration` at 90, not at
the pre-ad duration 100 — the completion path forges the duration-change from
the current `seekableEnd`, never from a snapshot of the pre-ad duration. -/
theorem c1_duration_not_restored_counterexample :
    (onAdComplete (onAdStart true (some 30) c1PreState)).media.duration ≠
      c1PreState.media.duration := by
  decide

/-- C1, amended: for every linear ad break, the ad start snapshots the content
position and played ranges and the completion path (also invoked verbatim by
skip) restores both bit-for-bit, regardless of the ad's own reported duration;
the forged duration-change however carries the current `seekableEnd` value, not
a snapshot of the pre-ad duration, so the duration reads as the pre-ad duration
only when the two coincide. -/
theorem c1_ad_session_round_trip (s : AdsState) (adDuration : Option ℚ) :
    (onAdComplete (onAdStart true adDuration s)).media.currentTime = s.media.currentTime ∧
    (onAdComplete (onAdStart true adDuration s)).media.played = s.media.played ∧
    (onAdComplete (onAdStart true adDuration s)).media.duration = s.media.seekableEnd ∧
    onAdSkip (onAdStart true adDuration s) = onAdComplete (onAdStart true adDuration s) := by
  refine ⟨rfl, rfl, rfl, rfl⟩

/-- C2, counterexample: a mute request received while unmuted with volume
exactly 0 enqueues a single `volume` record and leaves the volume at 0 — it is
not the claimed pair of records with a final volume of 0.25. -/
theorem c2_mute_at_zero_volume_counterexample :
    ¬(enqueueCount .volume (onMuteRequest c2Store 0) = 2 ∧
      (runProvider (onMuteRequest c2Store 0) c2Provider).muted = true ∧
      (runProvider (onMuteRequest c2Store 0) c2Provider).volume = 0.25) := by
  decide

/-- C2, amended: the two-record volume coupling belongs to the unmute path: for
every unmute request received while muted with volume exactly 0, two records
are enqueued under the `volume` category and the resulting state is
`muted = false` with `volume = 0.25`; a mute request received while unmuted
enqueues exactly one `volume` record, sets `muted = true`, and leaves the
volume untouched. -/
theorem c2_mute_unmute_volume_coupling (store : MediaStore) (eventId : ℕ) (p : ProviderState)
    (hm : store.muted = true) (hv : store.volume = 0) :
    (enqueueCount .volume (onUnmuteRequest store eventId) = 2 ∧
     (runProvider (onUnmuteRequest store eventId) p).muted = false ∧
     (runProvider (onUnmuteRequest store eventId) p).volume = 0.25) ∧
    (∀ store2 : MediaStore, store2.muted = false →
      enqueueCount .volume (onMuteRequest store2 eventId) = 1 ∧
      (runProvider (onMuteRequest store2 eventId) p).muted = true ∧
      (runProvider (onMuteRequest store2 eventId) p).volume = p.volume) := by
  constructor
  · simp [onUnmuteRequest, hm, hv, enqueueCount, runProvider, applyToProvider]
  · intro store2 hm2
    simp [onMuteRequest, hm2, enqueueCount, runProvider, applyToProvider]

/-- Witness for C2 at a concrete muted, zero-volume store. -/
theorem c2_witness :
    c2StoreMuted.muted = true ∧ c2StoreMuted.volume = 0 ∧
    (enqueueCount .volume (onUnmuteRequest c2StoreMuted 0) = 2 ∧
     (runProvider (onUnmuteRequest c2StoreMuted 0) c2Provider).muted = false ∧
     (runProvider (onUnmuteRequest c2StoreMuted 0) c2Provider).volume = 0.25) ∧
    (enqueueCount .volume (onMuteRequest c2Store 0) = 1 ∧
     (runProvider (onMuteRequest c2Store 0) c2Provider).muted = true ∧
     (runProvider (onMuteRequest c2Store 0) c2Provider).volume = c2Provider.volume) :=
  ⟨rfl, rfl, (c2_mute_unmute_volume_coupling c2StoreMuted 0 c2Provider rfl rfl).1,
    (c2_mute_unmute_volume_coupling c2StoreMuted 0 c2Provider rfl rfl).2 c2Store rfl⟩

/-- C3, evaluation of the code at the failing input: from a fresh detector, a
qualifying input arms the idle timeout, yet when that timeout fires after the
configured delay of silence the callback sets the idling flag to `false` — not
to `true` as the claim (and the detector's own documentation) states. Only
pausing forces the flag to `true`. -/
theorem c3_idle_timer_fires_idling_false :
    (handleIdleChange initialIdleState).timerArmed = true ∧
    (idleTimeoutFire (handleIdleChange initialIdleState)).idling = false ∧
    (onMediaPause initialIdleState).idling = true := by
  decide

/-- C4: the first source-change after attach updates only the `source` field,
preserves every previously tracked causality link and clears the skip flag;
every subsequent source-change soft-resets the media state (after writing the
new source) and clears every previously tracked causality link, retaining only
the source-change event itself. -/
theorem c4_source_change_reset_boundary (st : SMState) (id detail : ℕ) :
    (st.skipInitialSrcChange = true → st.tracked "vds-source-change" = none →
      (step (.sourceChange id detail) st).media = { st.media with source := detail } ∧
      (∀ k v, st.tracked k = some v → (step (.sourceChange id detail) st).tracked k = some v) ∧
      (step (.sourceChange id detail) st).skipInitialSrcChange = false) ∧
    (st.skipInitialSrcChange = false →
      (step (.sourceChange id detail) st).media =
        softResetMediaState { st.media with source := detail } ∧
      (step (.sourceChange id detail) st).tracked =
        fun k => if k = "vds-source-change" then some id else none) := by
  constructor
  · intro hskip hnone
    refine ⟨?_, ?_, ?_⟩
    · simp [step, trackOf, stepCore, hskip]
    · intro k v hkv
      by_cases hk : k = "vds-source-change"
      · rw [hk] at hkv; rw [hnone] at hkv; exact absurd hkv (by simp)
      · simp [step, trackOf, stepCore, hskip, setTracked, hk, hkv]
    · simp [step, trackOf, stepCore, hskip]
  · intro hskip
    refine ⟨?_, ?_⟩
    · simp [step, trackOf, stepCore, hskip, resetTracking, softResetMediaState]
    · funext k
      simp [step, trackOf, stepCore, hskip, resetTracking, setTracked]

/-- Witness for C4: a first source-change on the freshly attached state, then a
second source-change on the resulting state. -/
theorem c4_witness :
    ((step (.sourceChange 7 3) initialSMState).media =
        { initialSMState.media with source := 3 } ∧
      (step (.sourceChange 7 3) initialSMState).skipInitialSrcChange = false) ∧
    (step (.sourceChange 5 4) (step (.sourceChange 7 3) initialSMState)).media =
      softResetMediaState
        { (step (.sourceChange 7 3) initialSMState).media with source := 4 } := by
  have h1 := (c4_source_change_reset_boundary initialSMState 7 3).1 rfl rfl
  have h2 :=
    (c4_source_change_reset_boundary (step (.sourceChange 7 3) initialSMState) 5 4).2 h1.2.2
  exact ⟨⟨h1.1, h1.2.2⟩, h2.1⟩

/-- C5: a seek request whose target is within 0.25s of the duration's end sets
the provider target time to exactly the duration, any other request targets the
literal requested time. -/
theorem c5_seek_end_tolerance (store : MediaStore) (eventId : ℕ) (t : ℚ) (p : ProviderState) :
    (store.duration - t < 0.25 →
      (runProvider (onSeekRequest store eventId t) p).currentTime = store.duration) ∧
    (0.25 ≤ store.duration - t →
      (runProvider (onSeekRequest store eventId t) p).currentTime = t) := by
  constructor
  · intro h
    cases he : store.ended <;>
      simp [onSeekRequest, he, runProvider, applyToProvider, if_pos h]
  · intro h
    cases he : store.ended <;>
      simp [onSeekRequest, he, runProvider, applyToProvider, if_neg (not_lt.mpr h)]

/-- Witness for C5: with duration 10, a seek request for 9.9 targets 10 and a
seek request for 9 targets 9. -/
theorem c5_witness :
    (c5Store.duration - 9.9 < 0.25 ∧
      (runProvider (onSeekRequest c5Store 0 9.9) c5Provider).currentTime = c5Store.duration) ∧
    (0.25 ≤ c5Store.duration - 9 ∧
      (runProvider (onSeekRequest c5Store 0 9) c5Provider).currentTime = 9) :=
  ⟨⟨by norm_num [c5Store], (c5_seek_end_tolerance c5Store 0 9.9 c5Provider).1
      (by norm_num [c5Store])⟩,
   ⟨by norm_num [c5Store], (c5_seek_end_tolerance c5Store 0 9 c5Provider).2
      (by norm_num [c5Store])⟩⟩

/-- C6: while the looping signal is set, processing the engine `ended` event
leaves the state-manager state (in particular every media-state field, and the
`ended` field) entirely unchanged, and the event's propagation is stopped. -/
theorem c6_ended_suppressed_while_looping (st : SMState) (h : st.isLooping = true) :
    step .ended st = st ∧ stopsPropagation .ended st = true := by
  constructor
  · simp [step, trackOf, stepCore, h]
  · simp [stopsPropagation, h]

/-- Witness for C6 at a concrete state with the looping signal set. -/
theorem c6_witness :
    step .ended { initialSMState with isLooping := true } =
        { initialSMState with isLooping := true } ∧
      stopsPropagation .ended { initialSMState with isLooping := true } = true :=
  c6_ended_suppressed_while_looping { initialSMState with isLooping := true } rfl

/-- Every handler body of the state manager preserves the invariant that ended
implies paused and not playing. -/
theorem endedInv_stepCore (e : EngineEvent) (st : SMState) (h : EndedInv st.media) :
    EndedInv (stepCore e st).media := by
  cases e with
  | sourceChange id detail =>
      dsimp only [stepCore]
      split
      · exact h
      · intro he
        simp [resetTracking, softResetMediaState, initialMediaState] at he
  | autoplayFail id detail => exact h
  | play id =>
      dsimp only [stepCore]
      split
      · exact h
      · split
        · intro he; simp at he
        · next hrep =>
            intro he
            simp only [Bool.or_eq_true, not_or] at hrep
            exact absurd he hrep.1
  | playFail id => exact fun _ => ⟨rfl, rfl⟩
  | playing id =>
      dsimp only [stepCore]
      split
      · intro he; simp at he
      · split
        · intro he; simp at he
        · intro he; simp at he
  | pause id =>
      dsimp only [stepCore]
      split
      · exact h
      · exact fun _ => ⟨rfl, rfl⟩
  | seeked id detail isSeekingRequest =>
      dsimp only [stepCore]
      split
      · exact h
      · split
        · intro he
          apply h
          by_cases hd : some detail = st.media.duration
          · simpa [hd] using he
          · simp [hd] at he
        · exact h
  | waitingFire id =>
      intro he
      exact ⟨(h he).1, rfl⟩
  | ended =>
      dsimp only [stepCore]
      split
      · exact h
      · exact fun _ => ⟨rfl, rfl⟩
  | _ => exact h

/-- The tracked-events wrapper of `step` does not affect the invariant. -/
theorem endedInv_step (e : EngineEvent) (st : SMState) (h : EndedInv st.media) :
    EndedInv (step e st).media := by
  unfold step
  cases htr : trackOf e
  · exact endedInv_stepCore e st h
  · exact endedInv_stepCore e _ h

/-- C7: in every state-manager state reachable from provider attach through
handled engine events (and the request manager's writes on the shared signals),
a media state with `ended = true` also has `paused = true` and
`playing = false`. -/
theorem c7_ended_implies_paused_invariant (st : SMState) (h : Reachable st) :
    st.media.ended = true → st.media.paused = true ∧ st.media.playing = false := by
  induction h with
  | init => intro he; exact absurd he (by decide)
  | step e hr ih => exact endedInv_step e _ ih
  | request looping replay seekingWrite hr ih => exact fun he => ih he

/-- Witness for C7: the state reached by a single `ended` engine event from the
attach state has `ended = true`, and the invariant yields paused and not
playing there. -/
theorem c7_witness :
    Reachable (step .ended initialSMState) ∧
    (step .ended initialSMState).media.ended = true ∧
    ((step .ended initialSMState).media.paused = true ∧
      (step .ended initialSMState).media.playing = false) :=
  ⟨Reachable.step .ended Reachable.init, rfl,
    c7_ended_implies_paused_invariant (step .ended initialSMState)
      (Reachable.step .ended Reachable.init) rfl⟩

/-- C8: a pause request whose provider `pause()` call rejects ends with the
pending `pause` slot deleted, the failure only logged and no user-visible
failure event dispatched; a play request or an enter-fullscreen request whose
provider call rejects dispatches a user-visible failure event wrapping the
error. -/
theorem c8_pause_failure_recovered_locally (store : MediaStore) (eventId : ℕ)
    (q : ReqCategory → Option ℕ) (h : store.paused = false) :
    (runQueue (onPauseRequest store eventId true) q ReqCategory.pause = none ∧
     dispatchedNames (onPauseRequest store eventId true) = [] ∧
     loggedNames (onPauseRequest store eventId true) = ["pause-fail"]) ∧
    dispatchedNames (onPlayRequest { store with paused := true } eventId true) = ["play-fail"] ∧
    dispatchedNames (onEnterFullscreenRequest eventId true) = ["fullscreen-error"] := by
  refine ⟨⟨?_, ?_, ?_⟩, ?_, ?_⟩ <;>
    simp [onPauseRequest, onPlayRequest, onEnterFullscreenRequest, h, runQueue, applyToQueue,
      dispatchedNames, loggedNames]

/-- Witness for C8 at a concrete unpaused store and empty queue. -/
theorem c8_witness :
    c8Store.paused = false ∧
    ((runQueue (onPauseRequest c8Store 0 true) (fun _ => none) ReqCategory.pause = none ∧
      dispatchedNames (onPauseRequest c8Store 0 true) = [] ∧
      loggedNames (onPauseRequest c8Store 0 true) = ["pause-fail"]) ∧
     dispatchedNames (onPlayRequest { c8Store with paused := true } 0 true) = ["play-fail"] ∧
     dispatchedNames (onEnterFullscreenRequest 0 true) = ["fullscreen-error"]) :=
  ⟨rfl, c8_pause_failure_recovered_locally c8Store 0 (fun _ => none) rfl⟩

/-- C9: a volume-change request whose requested volume equals the stored volume
is a silent no-op; a request for a strictly positive volume received while
muted enqueues a second `volume` record and unmutes the provider, so an audible
volume change always unmutes. -/
theorem c9_volume_change_unmutes (store : MediaStore) (eventId : ℕ) (v : ℚ) (p : ProviderState) :
    (store.volume = v → onVolumeChangeRequest store eventId v = []) ∧
    (store.volume ≠ v → 0 < v → store.muted = true →
      enqueueCount .volume (onVolumeChangeRequest store eventId v) = 2 ∧
      (runProvider (onVolumeChangeRequest store eventId v) p).muted = false ∧
      (runProvider (onVolumeChangeRequest store eventId v) p).volume = v) := by
  constructor
  · intro h
    simp [onVolumeChangeRequest, h]
  · intro hne hv hm
    simp [onVolumeChangeRequest, hne, hv, hm, enqueueCount, runProvider, applyToProvider]

/-- Witness for C9: a request for volume 0.5 on a muted store at volume 1, and
a no-op request for the current volume 1. -/
theorem c9_witness :
    (c9Store.volume = 1 → onVolumeChangeRequest c9Store 0 1 = []) ∧
    (c9Store.volume ≠ 0.5 ∧ (0 : ℚ) < 0.5 ∧ c9Store.muted = true) ∧
    (enqueueCount .volume (onVolumeChangeRequest c9Store 0 0.5) = 2 ∧
     (runProvider (onVolumeChangeRequest c9Store 0 0.5) c2Provider).muted = false ∧
     (runProvider (onVolumeChangeRequest c9Store 0 0.5) c2Provider).volume = 0.5) :=
  ⟨(c9_volume_change_unmutes c9Store 0 1 c2Provider).1,
   ⟨by norm_num [c9Store], by norm_num, rfl⟩,
   (c9_volume_change_unmutes c9Store 0 0.5 c2Provider).2 (by norm_num [c9Store]) (by norm_num)
     rfl⟩

/-- C10: a duration-change engine event stores the payload as the new duration
when the payload is not NaN, stores 0 when the payload is NaN, and therefore
never writes NaN into the duration field. -/
theorem c10_duration_change_never_nan (st : SMState) (d : JSNum) :
    (∀ q : ℚ, d = some q → (step (.durationChange d) st).media.duration = some q) ∧
    (d = none → (step (.durationChange d) st).media.duration = some 0) ∧
    (step (.durationChange d) st).media.duration ≠ none := by
  refine ⟨?_, ?_, ?_⟩
  · intro q hq
    simp [step, trackOf, stepCore, hq]
  · intro hq
    simp [step, trackOf, stepCore, hq]
  · cases d <;> simp [step, trackOf, stepCore]

/-- Witness for C10: a NaN payload on the attach state yields duration 0, and a
payload of 30 yields duration 30. -/
theorem c10_witness :
    (step (.durationChange none) initialSMState).media.duration = some 0 ∧
    (step (.durationChange (some 30)) initialSMState).media.duration = some 30 ∧
    (step (.durationChange none) initialSMState).media.duration ≠ none :=
  ⟨(c10_duration_change_never_nan initialSMState none).2.1 rfl,
   (c10_duration_change_never_nan initialSMState (some 30)).1 30 rfl,
   (c10_duration_change_never_nan initialSMState none).2.2⟩

end Vidstack
